import Mathlib

/-!
Verification development for the Three.js point-cloud morphing application.

The definitions below are a shallow embedding of the TypeScript sources,
chiefly `src/main.ts` (class `ParticleMorpher`), `managers/UIManager.ts`
and the vertex shader in `shaders`.  Float64/Float32 arithmetic is
modelled over `ℚ`; `Math.random()` is modelled as an explicit stream
`rng : Nat → ℚ` of draws together with a cursor `rngIdx` counting how
many draws have been consumed.  The DOM, WebGL and model-file loading are
external collaborators and are not modelled; the fields they would fill
(`models`, the initial particle buffer) are parameters of the initial
state.
-/

attribute [local semireducible] Rat.sub Rat.add Rat.mul Rat.inv

/-- A 3D position, as one `x, y, z` triple of a `Float32Array`. -/
abbrev Vec3 : Type := ℚ × ℚ × ℚ

/-- A point cloud: ordered fixed-length sequence of 3D positions
(`Float32Array` of length `particleCount * 3`, grouped in triples). -/
abbrev PointCloud : Type := List Vec3

/-- One GSAP tween created by `gsap.to(currentPositions, {...})` in
`morphTo` (`main.ts` lines 152-166): it records the requested shape name
(read back by `onComplete`), the `endArray` target cloud, and the
remaining play time in seconds (initially
`morphDuration / animationSpeed`). -/
structure Tween where
  shape : String
  target : PointCloud
  remaining : ℚ
deriving Repr, DecidableEq

/-- The mutable state of `ParticleMorpher` (fields of the class in
`main.ts`) restricted to what the morph state machine, the auto-morph
scheduler and the explode generator read or write.  `models` is the
insertion-ordered string-keyed map `this.models`; `tweens` is the list of
live GSAP tweens on the particle position array, in creation order (GSAP 3
keeps the default `overwrite: false`, so `gsap.to` never kills an earlier
tween of the same target; every live tween advances each ticker frame and
fires its own `onComplete`).  `hasParticles` models `this.particles !==
null`.  `rng`/`rngIdx` model the `Math.random()` stream. -/
structure MorpherState where
  models : List (String × PointCloud)
  currentShape : String
  isTransitioning : Bool
  buffer : PointCloud
  tweens : List Tween
  autoMorph : Bool
  autoMorphDuration : ℚ
  lastMorphTime : ℚ
  morphDuration : ℚ
  animationSpeed : ℚ
  particleCount : Nat
  rng : Nat → ℚ
  rngIdx : Nat
  hasParticles : Bool

/-- `getExplodePositions` (`main.ts` lines 169-177): a fresh
`Float32Array` with, for each particle, three new draws of
`(Math.random() - 0.5) * 500`, consumed from the stream in order
x, y, z. -/
def getExplodePositions (count : Nat) (rng : Nat → ℚ) (start : Nat) : PointCloud :=
  (List.range count).map fun i =>
    ((rng (start + 3 * i) - 1/2) * 500,
     (rng (start + 3 * i + 1) - 1/2) * 500,
     (rng (start + 3 * i + 2) - 1/2) * 500)

/-- JavaScript property access `this.models[shape]` on the insertion-ordered
map: the value of the first (and only) binding of that key, or `undefined`
(`none`). -/
def lookup (models : List (String × PointCloud)) (name : String) : Option PointCloud :=
  (models.find? fun p => p.1 == name).map fun p => p.2

/-- Tween play time `this.settings.morphDuration / this.settings.animationSpeed`
(`main.ts` line 153). -/
def tweenDuration (s : MorpherState) : ℚ :=
  s.morphDuration / s.animationSpeed

/-- `ParticleMorpher.morphTo` (`main.ts` lines 136-167), as the net
synchronous state change of one call.

* line 137: a request while transitioning is dropped unless the target is
  the explode pseudo-shape;
* line 138: dropped when `this.particles` is null;
* lines 139-147: `isTransitioning` is set to `true`, the target cloud is
  resolved (`getExplodePositions()` for "explode", else
  `this.models[shape]`); if the resolved value is falsy the flag is reset
  to `false` and the call returns.  NOTE: an empty `Float32Array` is
  truthy in JavaScript, so the explode branch can never take the falsy
  exit, even when `particleCount = 0`; the transient `true`-then-`false`
  of the flag in the falsy case is collapsed to its net effect (the call
  is synchronous, nothing observes the intermediate value);
* lines 152-166: otherwise a new tween towards the resolved cloud is
  created.  Its `onComplete` (modelled in `stepAcc`) will set
  `isTransitioning := false` and `currentShape := shape`
  (`uiManager.updateActiveShape` and `console.log` are external). -/
def morphTo (s : MorpherState) (shape : String) : MorpherState :=
  if s.isTransitioning = true ∧ shape ≠ "explode" then s
  else if s.hasParticles = false then s
  else if shape = "explode" then
    { s with isTransitioning := true,
             rngIdx := s.rngIdx + 3 * s.particleCount,
             tweens := s.tweens ++
               [⟨shape, getExplodePositions s.particleCount s.rng s.rngIdx,
                 tweenDuration s⟩] }
  else
    match lookup s.models shape with
    | none => { s with isTransitioning := false }
    | some target =>
        { s with isTransitioning := true,
                 tweens := s.tweens ++ [⟨shape, target, tweenDuration s⟩] }

/-- One GSAP ticker update of a single tween, threading the accumulated
state and the list of tweens that survive the frame.  A tween whose
remaining time elapses writes its `endArray` end values into the particle
buffer and fires its `onComplete` (`main.ts` lines 160-165):
`isTransitioning := false`, `currentShape := shape`.  A still-running
tween keeps writing eased intermediate values into the buffer; those
intermediate values decide no claim and are abstracted (the buffer is
recorded at tween completion boundaries). -/
def stepAcc (dt : ℚ) (acc : MorpherState × List Tween) (t : Tween) :
    MorpherState × List Tween :=
  if t.remaining ≤ dt then
    ({ acc.1 with buffer := t.target, isTransitioning := false,
                  currentShape := t.shape }, acc.2)
  else
    (acc.1, acc.2 ++ [{ t with remaining := t.remaining - dt }])

/-- Advance every live GSAP tween by `dt` seconds, in creation order (the
order GSAP's ticker updates them within one frame). -/
def stepTweens (s : MorpherState) (dt : ℚ) : MorpherState :=
  let r := s.tweens.foldl (stepAcc dt) (s, [])
  { r.1 with tweens := r.2 }

/-- `Array.prototype.indexOf` on `Object.keys(this.models)`: first index of
the name, or `-1` when absent. -/
def jsIndexOf : List String → String → Int
  | [], _ => -1
  | k :: ks, name =>
      if k = name then 0
      else if jsIndexOf ks name = -1 then -1 else jsIndexOf ks name + 1

/-- `ParticleMorpher.handleAutoMorph` (`main.ts` lines 316-329), called
once per animation frame with `now = performance.now()` (milliseconds):
skip when auto-morph is off or a transition is running; when the interval
has elapsed and at least one model is loaded, issue
`morphTo(morphKeys[(indexOf(currentShape) + 1) % morphKeys.length])` and
set `lastMorphTime := now`. -/
def handleAutoMorph (s : MorpherState) (now : ℚ) : MorpherState :=
  if s.autoMorph = false ∨ s.isTransitioning = true then s
  else if s.autoMorphDuration < now - s.lastMorphTime then
    if 0 < (s.models.map Prod.fst).length then
      { morphTo s ((s.models.map Prod.fst).getD
          (((jsIndexOf (s.models.map Prod.fst) s.currentShape + 1) %
            ((s.models.map Prod.fst).length : Int)).toNat) "")
        with lastMorphTime := now }
    else s
  else s

/-- The external stimuli that drive the modelled state:

* `request shape`: a `morphTo` call (shape button click via `UIManager`,
  or the startup `morphTo("queen")`);
* `frame now dt`: one animation frame at time `now` ms — the
  `handleAutoMorph` check of `animate()` followed by the GSAP ticker
  advancing every live tween by `dt` seconds;
* `toggleAutoMorph checked now`: the auto-morph checkbox handler in
  `UIManager.setupToggles`, which stores the flag and, when turning it
  on, dispatches the `autoMorphReset` setting-update, whose handler in
  `setupEvents` (`main.ts` lines 220-222) sets
  `lastMorphTime := performance.now()`. -/
inductive Event where
  | request (shape : String)
  | frame (now dt : ℚ)
  | toggleAutoMorph (checked : Bool) (now : ℚ)

/-- The transition function of the whole modelled system. -/
def step (s : MorpherState) : Event → MorpherState
  | Event.request shape => morphTo s shape
  | Event.frame now dt => stepTweens (handleAutoMorph s now) dt
  | Event.toggleAutoMorph checked now =>
      if checked = true then
        { s with autoMorph := checked, lastMorphTime := now }
      else { s with autoMorph := checked }

/-- Run a sequence of events. -/
def run (s : MorpherState) (es : List Event) : MorpherState :=
  es.foldl step s

/-- The state right after the `ParticleMorpher` constructor and `init()`
have run up to the end of `loadModels()` (before the startup
`morphTo("queen")`): settings are `DEFAULT_SETTINGS` from `UIManager.ts`
(`particleCount = 15000`, `morphDuration = 2.5` s, `animationSpeed = 1`,
`autoMorph = true`, `autoMorphDuration = 5000` ms), `currentShape` is the
field initializer `"queen"`, no transition is running, and
`setupParticles` has built the particle system.  The loaded clouds, the
random initial buffer and the position of the `Math.random()` cursor
after `setupParticles` depend on external data and are parameters. -/
def initState (models : List (String × PointCloud)) (buffer0 : PointCloud)
    (rng : Nat → ℚ) (rngIdx0 : Nat) : MorpherState :=
  { models := models
    currentShape := "queen"
    isTransitioning := false
    buffer := buffer0
    tweens := []
    autoMorph := true
    autoMorphDuration := 5000
    lastMorphTime := 0
    morphDuration := 5/2
    animationSpeed := 1
    particleCount := 15000
    rng := rng
    rngIdx := rngIdx0
    hasParticles := true }

/-! ### Interaction field (vertex shader)

The vertex shader in `src/shaders` (also inlined in earlier application
versions) computes a per-particle displacement from the pointer.  GLSL
float arithmetic is modelled over `ℚ`; the transcendental GLSL builtins
`sin`, `cos`, `normalize`, `distance` have no rational counterpart and are
abstracted as an oracle parameter `ShaderMath` — every theorem about the
field is proved for an arbitrary oracle, and the zero-displacement branch
never evaluates them. -/

/-- Vector sum on `vec3`. -/
def vadd (a b : Vec3) : Vec3 := (a.1 + b.1, a.2.1 + b.2.1, a.2.2 + b.2.2)

/-- Vector difference on `vec3`. -/
def vsub (a b : Vec3) : Vec3 := (a.1 - b.1, a.2.1 - b.2.1, a.2.2 - b.2.2)

/-- Scalar multiple on `vec3`. -/
def vsmul (c : ℚ) (v : Vec3) : Vec3 := (c * v.1, c * v.2.1, c * v.2.2)

/-- GLSL `clamp(x, minVal, maxVal)` = `min(max(x, minVal), maxVal)`. -/
def clampQ (x lo hi : ℚ) : ℚ := min (max x lo) hi

/-- GLSL `smoothstep(edge0, edge1, x)`:
`t = clamp((x - edge0) / (edge1 - edge0), 0, 1); t * t * (3 - 2 * t)`. -/
def smoothstepQ (edge0 edge1 x : ℚ) : ℚ :=
  clampQ ((x - edge0) / (edge1 - edge0)) 0 1 *
    (clampQ ((x - edge0) / (edge1 - edge0)) 0 1 *
      (3 - 2 * clampQ ((x - edge0) / (edge1 - edge0)) 0 1))

/-- Oracle for the transcendental GLSL builtins used only inside the
non-zero-falloff branch of the shader. -/
structure ShaderMath where
  sinq : ℚ → ℚ
  cosq : ℚ → ℚ
  normq : Vec3 → Vec3
  distq : Vec3 → Vec3 → ℚ

/-- Shader line
`float falloff = smoothstep(uRadius * (1.2 + noise * 0.5), 0.0, dist);`
with `noise = aRandom`. -/
def falloffOf (noise uRadius dist : ℚ) : ℚ :=
  smoothstepQ (uRadius * (12/10 + noise * (5/10))) 0 dist

/-- The `randomDir` vector of the shader: per-axis `sin`/`cos` of
`pos * 0.15 + slowTime * phase + noise * 6.28` with
`slowTime = uTime * 0.0002`. -/
def driftDir (m : ShaderMath) (pos : Vec3) (noise uTime : ℚ) : Vec3 :=
  (m.sinq (pos.1 * (15/100) + uTime * (2/10000) + noise * (628/100)),
   m.cosq (pos.2.1 * (15/100) + uTime * (2/10000) * (11/10) + noise * (628/100)),
   m.sinq (pos.2.2 * (15/100) + uTime * (2/10000) * (12/10) + noise * (628/100)))

/-- The displacement the vertex shader adds to `worldPosition.xyz`: zero
when `falloff > 0.0` fails, otherwise
`finalDir * (falloff * uStrength * (0.8 + sin(uTime * 0.001 + noise * 6.28) * 0.2))`
where `finalDir = normalize(0.3 * normalize(world - uMouse) + 0.7 * randomDir)`.
`dist` is GLSL `distance(worldPosition.xyz, uMouse)`, via the oracle. -/
def interactionDisplacement (m : ShaderMath) (worldPos posLocal uMouse : Vec3)
    (noise uRadius uStrength uTime : ℚ) : Vec3 :=
  if 0 < falloffOf noise uRadius (m.distq worldPos uMouse) then
    vsmul (falloffOf noise uRadius (m.distq worldPos uMouse) * uStrength *
            (8/10 + m.sinq (uTime * (1/1000) + noise * (628/100)) * (2/10)))
      (m.normq (vadd (vsmul (3/10) (m.normq (vsub worldPos uMouse)))
                     (vsmul (7/10) (driftDir m posLocal noise uTime))))
  else (0, 0, 0)

/-! ### Concrete states and traces

Concrete data for counterexamples and witnesses.  The loaded model clouds
always have exactly `particleCount` points (`ModelLoader.samplePointsOnSurface`
fills `count` samples), so representative 15000-point clouds are used. -/

/-- A stand-in for the sampled queen cloud (15000 points). -/
def cloudQ : PointCloud := List.replicate 15000 ((0 : ℚ), (0 : ℚ), (0 : ℚ))

/-- A stand-in for the sampled pawn cloud (15000 points). -/
def cloudP : PointCloud := List.replicate 15000 ((1 : ℚ), (1 : ℚ), (1 : ℚ))

/-- The model map after `loadModels()`: queen then pawn, insertion order. -/
def demoModels : List (String × PointCloud) := [("queen", cloudQ), ("pawn", cloudP)]

/-- A concrete `Math.random()` stream. -/
def rngHalf : Nat → ℚ := fun _ => 1/2

/-- A concrete post-load state (`setupParticles` consumed
`15000 * 3` position draws and `15000` `aRandom` draws, hence cursor
`60000`). -/
def s0 : MorpherState := initState demoModels cloudQ rngHalf 60000

/-- Startup morph, its completion, a manual morph to pawn, then an explode
request issued mid-transition; the final frame at `now = 5000` ms advances
GSAP by 1.5 s, exactly the remaining time of the pawn tween, while the
explode tween still has 1 s to play.  The scheduler is a no-op at every
frame shown (`now - lastMorphTime > 5000` never holds, and a transition is
running at each check). -/
def overlapTrace : List Event :=
  [Event.request "queen", Event.frame 2500 (5/2), Event.request "pawn",
   Event.frame 3500 1, Event.request "explode", Event.frame 5000 (3/2)]

/-- An explode request from the idle initial state, then a frame that
completes its tween. -/
def explodeTrace : List Event :=
  [Event.request "explode", Event.frame 2500 (5/2)]

/-- Startup morph and completion, then a manual morph to pawn completed at
`now = 5000` ms. -/
def manualTrace : List Event :=
  [Event.request "queen", Event.frame 2500 (5/2), Event.request "pawn",
   Event.frame 5000 (5/2)]

/-- Idle at "queen"; one auto-morph fires at 5001 ms and completes. -/
def cyclePrefix : List Event :=
  [Event.request "queen", Event.frame 2500 (5/2),
   Event.frame 5001 0, Event.frame 7501 (5/2)]

/-- `cyclePrefix` followed by a second auto-morph and its completion. -/
def cycleTrace : List Event :=
  cyclePrefix ++ [Event.frame 10502 0, Event.frame 13002 (5/2)]

/-- A state with `particleCount = 0`, exercising the "empty explode
request of size 0" the specification speaks about. -/
def sZero : MorpherState := { s0 with particleCount := 0 }

/-- A state mid-way through an explode tween (remaining 2.5 s). -/
def expTween : Tween := ⟨"explode", [], 5/2⟩

/-- A state whose only live tween is an explode tween. -/
def sOne : MorpherState := { s0 with tweens := [expTween], isTransitioning := true }

/-- A state whose stored current shape is the explode pseudo-shape (as
happens after an explode morph completes). -/
def sExpl : MorpherState := { s0 with currentShape := "explode" }

/-- The scheduler fire condition of `handleAutoMorph` (`main.ts` lines
317-322): auto-morph on, not mid-transition, interval elapsed, at least
one model loaded. -/
def AutoFire (s : MorpherState) (now : ℚ) : Prop :=
  s.autoMorph = true ∧ s.isTransitioning = false ∧
    s.autoMorphDuration < now - s.lastMorphTime ∧ s.models ≠ []

instance (s : MorpherState) (now : ℚ) : Decidable (AutoFire s now) := by
  unfold AutoFire
  infer_instance

/-- A trivial oracle instance used by witnesses. -/
def zeroMath : ShaderMath :=
  ⟨fun _ => 0, fun _ => 0, fun _ => (0, 0, 0), fun _ _ => 2⟩

/-! ### Helper lemmas -/

/-- Resetting `isTransitioning` to the value it already has is the
identity. -/
theorem setTransitioning_self (s : MorpherState) (h : s.isTransitioning = false) :
    { s with isTransitioning := false } = s := by
  rw [← h]

/-- `morphTo` never touches the model map: the explode cloud (or anything
else) is never registered into `this.models`. -/
theorem morphTo_models (s : MorpherState) (shape : String) :
    (morphTo s shape).models = s.models := by
  unfold morphTo
  split
  · rfl
  · split
    · rfl
    · split
      · rfl
      · split <;> rfl

/-- `morphTo` never touches `lastMorphTime`. -/
theorem morphTo_lastMorphTime (s : MorpherState) (shape : String) :
    (morphTo s shape).lastMorphTime = s.lastMorphTime := by
  unfold morphTo
  split
  · rfl
  · split
    · rfl
    · split
      · rfl
      · split <;> rfl

/-- The GSAP frame fold never touches the model map. -/
theorem stepAcc_fold_models (dt : ℚ) (ts : List Tween)
    (acc : MorpherState × List Tween) :
    ((ts.foldl (stepAcc dt) acc).1).models = acc.1.models := by
  induction ts generalizing acc with
  | nil => rfl
  | cons t ts ih =>
      rw [List.foldl_cons, ih]
      unfold stepAcc
      split <;> rfl

/-- Advancing tweens never touches the model map. -/
theorem stepTweens_models (s : MorpherState) (dt : ℚ) :
    (stepTweens s dt).models = s.models := by
  unfold stepTweens
  exact stepAcc_fold_models dt s.tweens (s, [])

/-- The GSAP frame fold never touches `lastMorphTime`: no tween
`onComplete` resets the auto-morph clock. -/
theorem stepAcc_fold_lastMorphTime (dt : ℚ) (ts : List Tween)
    (acc : MorpherState × List Tween) :
    ((ts.foldl (stepAcc dt) acc).1).lastMorphTime = acc.1.lastMorphTime := by
  induction ts generalizing acc with
  | nil => rfl
  | cons t ts ih =>
      rw [List.foldl_cons, ih]
      unfold stepAcc
      split <;> rfl

/-- Advancing tweens never touches `lastMorphTime`. -/
theorem stepTweens_lastMorphTime (s : MorpherState) (dt : ℚ) :
    (stepTweens s dt).lastMorphTime = s.lastMorphTime := by
  unfold stepTweens
  exact stepAcc_fold_lastMorphTime dt s.tweens (s, [])

/-- The auto-morph check never touches the model map. -/
theorem handleAutoMorph_models (s : MorpherState) (now : ℚ) :
    (handleAutoMorph s now).models = s.models := by
  unfold handleAutoMorph
  split
  · rfl
  · split
    · split
      · exact morphTo_models s _
      · rfl
    · rfl

/-- No event of the system ever changes the model map: in particular the
explode cloud is never cached in the shape library. -/
theorem step_models (s : MorpherState) (e : Event) :
    (step s e).models = s.models := by
  cases e with
  | request shape => exact morphTo_models s shape
  | frame now dt =>
      show (stepTweens (handleAutoMorph s now) dt).models = s.models
      rw [stepTweens_models, handleAutoMorph_models]
  | toggleAutoMorph checked now =>
      simp only [step]
      split <;> rfl

/-- `handleAutoMorph` resets `lastMorphTime` to `now` exactly when the
fire condition holds, and leaves it alone otherwise. -/
theorem handleAutoMorph_lastMorphTime (s : MorpherState) (now : ℚ) :
    (handleAutoMorph s now).lastMorphTime =
      if AutoFire s now then now else s.lastMorphTime := by
  unfold handleAutoMorph AutoFire
  by_cases h1 : s.autoMorph = false ∨ s.isTransitioning = true
  · rw [if_pos h1, if_neg]
    rintro ⟨ha, ht, -, -⟩
    rcases h1 with h1 | h1 <;> simp_all
  · push_neg at h1
    have haT : s.autoMorph = true := by simpa using h1.1
    have htF : s.isTransitioning = false := by simpa using h1.2
    rw [if_neg (by simp [haT, htF] : ¬(s.autoMorph = false ∨ s.isTransitioning = true))]
    by_cases h2 : s.autoMorphDuration < now - s.lastMorphTime
    · rw [if_pos h2]
      by_cases h3 : s.models = []
      · rw [if_neg (by simp [h3]), if_neg (by rintro ⟨-, -, -, hne⟩; exact hne h3)]
      · rw [if_pos (by simp [List.length_pos, List.map_eq_nil_iff, h3]),
            if_pos ⟨haT, htF, h2, h3⟩]
    · rw [if_neg h2, if_neg (by rintro ⟨-, -, hlt, -⟩; exact h2 hlt)]

/-- `morphTo` on an idle controller with a registered target starts one
tween toward the registered cloud. -/
theorem morphTo_found (s : MorpherState) (a : String) (T : PointCloud)
    (h1 : s.isTransitioning = false) (h2 : s.hasParticles = true)
    (h3 : a ≠ "explode") (h4 : lookup s.models a = some T) :
    morphTo s a = { s with isTransitioning := true,
                           tweens := s.tweens ++ [⟨a, T, tweenDuration s⟩] } := by
  unfold morphTo
  rw [if_neg (by simp [h1]), if_neg (by simp [h2]), if_neg h3, h4]

/-- `morphTo "explode"` always starts a tween (whatever the transition
flag is): the target is generated in place by `getExplodePositions`,
consuming `3 * particleCount` fresh draws. -/
theorem morphTo_explode (s : MorpherState) (h2 : s.hasParticles = true) :
    morphTo s "explode" =
      { s with isTransitioning := true,
               rngIdx := s.rngIdx + 3 * s.particleCount,
               tweens := s.tweens ++
                 [⟨"explode", getExplodePositions s.particleCount s.rng s.rngIdx,
                   tweenDuration s⟩] } := by
  unfold morphTo
  rw [if_neg (by simp), if_neg (by simp [h2]), if_pos rfl]

/-- Completing the only live tween writes its end array and fires its
`onComplete`. -/
theorem stepTweens_single (s : MorpherState) (t : Tween) (dt : ℚ)
    (h1 : s.tweens = [t]) (h2 : t.remaining ≤ dt) :
    stepTweens s dt = { s with buffer := t.target, isTransitioning := false,
                               currentShape := t.shape, tweens := [] } := by
  unfold stepTweens
  rw [h1]
  show ({ (stepAcc dt (s, []) t).1 with tweens := (stepAcc dt (s, []) t).2 }
          : MorpherState) = _
  unfold stepAcc
  rw [if_pos h2]

/-- `Array.prototype.indexOf` yields `-1` exactly for absent names. -/
theorem jsIndexOf_not_mem (keys : List String) (name : String)
    (h : name ∉ keys) : jsIndexOf keys name = -1 := by
  induction keys with
  | nil => rfl
  | cons k ks ih =>
      have hk : ¬(k = name) := fun he => h (List.mem_cons.mpr (Or.inl he.symm))
      have hks : name ∉ ks := fun hm => h (List.mem_cons.mpr (Or.inr hm))
      unfold jsIndexOf
      rw [if_neg hk, ih hks, if_pos rfl]

/-- Every tween that survives a GSAP frame is one of the tweens that
entered it, with the same shape name and the same end array: frames never
regenerate a pending target. -/
theorem stepAcc_fold_mem (dt : ℚ) (ts : List Tween)
    (acc : MorpherState × List Tween) (t2 : Tween)
    (h : t2 ∈ (ts.foldl (stepAcc dt) acc).2) :
    t2 ∈ acc.2 ∨ ∃ t1, t1 ∈ ts ∧ t2.shape = t1.shape ∧ t2.target = t1.target := by
  induction ts generalizing acc with
  | nil => exact Or.inl h
  | cons t ts ih =>
      rw [List.foldl_cons] at h
      rcases ih _ h with h1 | ⟨t1, ht1, he⟩
      · unfold stepAcc at h1
        by_cases hr : t.remaining ≤ dt
        · rw [if_pos hr] at h1
          exact Or.inl h1
        · rw [if_neg hr] at h1
          rcases List.mem_append.mp h1 with h2 | h2
          · exact Or.inl h2
          · have he : t2 = { t with remaining := t.remaining - dt } :=
              List.mem_singleton.mp h2
            exact Or.inr ⟨t, List.mem_cons_self t ts, by rw [he], by rw [he]⟩
      · exact Or.inr ⟨t1, List.mem_cons_of_mem _ ht1, he⟩

/-- When the falloff vanishes the shader skips the displacement branch. -/
theorem dispZero_of_falloff (m : ShaderMath) (worldPos posLocal uMouse : Vec3)
    (noise uRadius uStrength uTime : ℚ)
    (h : falloffOf noise uRadius (m.distq worldPos uMouse) = 0) :
    interactionDisplacement m worldPos posLocal uMouse noise uRadius uStrength uTime
      = (0, 0, 0) := by
  unfold interactionDisplacement
  rw [h]
  norm_num

/-- Beyond the per-particle effective radius the reversed smoothstep is
exactly zero; `radius * 1.7` bounds that radius for `noise ≤ 1`. -/
theorem falloff_far_zero (noise uRadius dist : ℚ)
    (h0 : 0 ≤ noise) (h1 : noise ≤ 1) (h2 : 0 < uRadius)
    (h3 : uRadius * (17/10) < dist) :
    falloffOf noise uRadius dist = 0 := by
  unfold falloffOf smoothstepQ clampQ
  have hedge : 0 < uRadius * (12/10 + noise * (5/10)) := by nlinarith
  have hne : uRadius * (12/10 + noise * (5/10)) ≤ uRadius * (17/10) := by nlinarith
  have hq : (dist - uRadius * (12/10 + noise * (5/10))) /
      (0 - uRadius * (12/10 + noise * (5/10))) ≤ 0 := by
    apply div_nonpos_of_nonneg_of_nonpos
    · nlinarith
    · nlinarith
  rw [max_eq_right hq, min_eq_left (by norm_num : (0 : ℚ) ≤ 1)]
  ring

/-! ### Claim theorems -/

/-- Claim C1: a morph request arriving while a transition is running, with
a non-explode target, is silently dropped — the state (including the live
tween list, so no queue) is unchanged; and in the two-rapid-requests
scenario the second call is a no-op and the buffer still ends at the first
request's registered target cloud, with its name recorded on
completion. -/
theorem morph_drop_concurrent :
    (∀ (s : MorpherState) (shape : String), s.isTransitioning = true →
        shape ≠ "explode" → morphTo s shape = s) ∧
    (∀ (s : MorpherState) (a b : String) (T : PointCloud) (dt : ℚ),
        s.isTransitioning = false → s.hasParticles = true → s.tweens = [] →
        a ≠ "explode" → b ≠ "explode" → lookup s.models a = some T →
        tweenDuration s ≤ dt →
        morphTo (morphTo s a) b = morphTo s a ∧
        (stepTweens (morphTo s a) dt).buffer = T ∧
        (stepTweens (morphTo s a) dt).currentShape = a ∧
        (stepTweens (morphTo s a) dt).isTransitioning = false) := by
  constructor
  · intro s shape h1 h2
    unfold morphTo
    rw [if_pos ⟨h1, h2⟩]
  · intro s a b T dt h1 h2 h3 ha hb hT hdt
    have hstart := morphTo_found s a T h1 h2 ha hT
    have hdrop : morphTo (morphTo s a) b = morphTo s a := by
      rw [hstart]
      unfold morphTo
      rw [if_pos ⟨rfl, hb⟩]
    have hdone : stepTweens (morphTo s a) dt =
        { morphTo s a with buffer := T, isTransitioning := false,
                           currentShape := a, tweens := [] } := by
      apply stepTweens_single (morphTo s a) ⟨a, T, tweenDuration s⟩ dt
      · rw [hstart, h3]
        rfl
      · exact hdt
    exact ⟨hdrop, by rw [hdone], by rw [hdone], by rw [hdone]⟩

/-- Claim C1 witness: a concrete idle state, a request for the registered
queen cloud followed by a rapid request for pawn; the second is a no-op
and the buffer ends at the queen cloud. -/
theorem morph_drop_concurrent_witness :
    morphTo (morphTo s0 "queen") "pawn" = morphTo s0 "queen" ∧
    (stepTweens (morphTo s0 "queen") (5/2)).buffer = cloudQ ∧
    (stepTweens (morphTo s0 "queen") (5/2)).currentShape = "queen" := by
  have h := morph_drop_concurrent.2 s0 "queen" "pawn" cloudQ (5/2)
    rfl rfl rfl (by decide) (by decide) rfl (by decide)
  exact ⟨h.1, h.2.1, h.2.2.1⟩

/-- Claim C2 (code bug exhibit): `gsap.to` with GSAP 3 default
`overwrite: false` does not cancel the in-flight tween, so after the
startup morph, a manual morph to pawn and a mid-flight explode request,
the frame at `now = 5000` ms completes the pawn tween while the explode
tween is still live: its `onComplete` fires (`currentShape` becomes
"pawn"), and `isTransitioning` is `false` although one tween — the
explode tween, with 1 s left — is still playing. -/
theorem overlap_keeps_old_tween_effects :
    (run s0 overlapTrace).isTransitioning = false ∧
    (run s0 overlapTrace).currentShape = "pawn" ∧
    (run s0 overlapTrace).tweens.map (fun t => t.shape) = ["explode"] ∧
    (run s0 overlapTrace).tweens.map (fun t => t.remaining) = [1] := by
  refine ⟨rfl, rfl, rfl, rfl⟩

/-- Claim C3 counterexample: the claim says `currentShapeName` never
equals "explode" in any reachable state; yet after an explode request from
the initial state completes, `onComplete` stores exactly that
(`this.currentShape = shape` at `main.ts` line 162). -/
theorem explode_recorded_as_current :
    (run s0 explodeTrace).currentShape = "explode" := rfl

/-- Claim C3 (amended): the explode cloud itself is never cached — no
event ever changes the registered model map — but the completion of a
tween stores the tween's requested shape name, so after an explode morph
completes `currentShapeName` is "explode". -/
theorem explode_never_cached :
    (∀ (s : MorpherState) (e : Event), (step s e).models = s.models) ∧
    (∀ (s : MorpherState) (t : Tween) (dt : ℚ), s.tweens = [t] →
        t.remaining ≤ dt →
        (stepTweens s dt).currentShape = t.shape ∧
        (stepTweens s dt).isTransitioning = false) := by
  refine ⟨step_models, ?_⟩
  intro s t dt h1 h2
  rw [stepTweens_single s t dt h1 h2]
  exact ⟨rfl, rfl⟩

/-- Claim C3 amended-claim witness: an explode request leaves the model
map unchanged, and completing a live explode tween records "explode" as
the current shape. -/
theorem explode_never_cached_witness :
    (step s0 (Event.request "explode")).models = s0.models ∧
    (stepTweens sOne (5/2)).currentShape = "explode" := by
  exact ⟨explode_never_cached.1 s0 (Event.request "explode"),
         (explode_never_cached.2 sOne expTween (5/2) rfl (le_refl _)).1⟩

/-- Claim C4 counterexample: the claim counts "an empty explode request of
size 0" among requests that resolve to no cloud and are dropped with
`isTransitioning` left `false`; but `new Float32Array(0)` is truthy in
JavaScript, so with `particleCount = 0` the explode request passes the
`!targetPositions` guard, starts a real tween whose end array is the
empty cloud, and leaves `isTransitioning = true`. -/
theorem empty_explode_starts_tween :
    (morphTo sZero "explode").isTransitioning = true ∧
    (morphTo sZero "explode").tweens.map (fun t => t.shape) = ["explode"] ∧
    (morphTo sZero "explode").tweens.map (fun t => t.target) = [[]] := by
  refine ⟨rfl, rfl, rfl⟩

/-- Claim C4 (amended): a request whose target name has no registered
cloud (and is not "explode") is a no-op: no tween starts and the whole
state — buffer, `currentShapeName`, `isTransitioning` — is unchanged.
Explode requests are excluded: they always resolve, even to an empty
(truthy) cloud when `particleCount = 0`. -/
theorem missing_shape_noop (s : MorpherState) (shape : String)
    (h1 : s.isTransitioning = false) (h2 : shape ≠ "explode")
    (h3 : lookup s.models shape = none) :
    morphTo s shape = s := by
  unfold morphTo
  rw [if_neg (by simp [h1]), if_neg h2]
  by_cases hp : s.hasParticles = false
  · rw [if_pos hp]
  · rw [if_neg hp, h3]
    exact setTransitioning_self s h1

/-- Claim C4 witness: a request for the unregistered name "rook" from the
concrete initial state is the identity. -/
theorem missing_shape_noop_witness : morphTo s0 "rook" = s0 :=
  missing_shape_noop s0 "rook" rfl (by decide) rfl

/-- Claim C5: assuming every `Math.random()` draw lies in `[0, 1)`, the
explode generator returns exactly `count` positions; position `i` is
`((r₀ - ½)·500, (r₁ - ½)·500, (r₂ - ½)·500)` for the three pairwise
distinct fresh draws `r₀ = rng (start + 3i)`, `r₁ = rng (start + 3i + 1)`,
`r₂ = rng (start + 3i + 2)` — one independent draw per coordinate per
axis — so every coordinate on every axis lies within `[-250, 250]`
(indeed in `[-250, 250)`), a 500-unit cube centered at the origin.
Uniformity of the draws themselves is the contract of `Math.random()`,
which the stream hypothesis models. -/
theorem explode_cloud_spec (count : Nat) (rng : Nat → ℚ) (start : Nat)
    (h : ∀ n, 0 ≤ rng n ∧ rng n < 1) :
    (getExplodePositions count rng start).length = count ∧
    (∀ i, i < count →
        (getExplodePositions count rng start)[i]? =
          some ((rng (start + 3 * i) - 1/2) * 500,
                (rng (start + 3 * i + 1) - 1/2) * 500,
                (rng (start + 3 * i + 2) - 1/2) * 500)) ∧
    (∀ p ∈ getExplodePositions count rng start,
        (-250 ≤ p.1 ∧ p.1 ≤ 250) ∧ (-250 ≤ p.2.1 ∧ p.2.1 ≤ 250) ∧
          (-250 ≤ p.2.2 ∧ p.2.2 ≤ 250)) := by
  refine ⟨by simp [getExplodePositions], ?_, ?_⟩
  · intro i hi
    simp [getExplodePositions, List.getElem?_map, List.getElem?_range, hi]
  · intro p hp
    simp only [getExplodePositions, List.mem_map, List.mem_range] at hp
    obtain ⟨i, -, rfl⟩ := hp
    have h0 := h (start + 3 * i)
    have h1 := h (start + 3 * i + 1)
    have h2 := h (start + 3 * i + 2)
    refine ⟨⟨?_, ?_⟩, ⟨?_, ?_⟩, ⟨?_, ?_⟩⟩ <;> simp only <;> nlinarith

/-- Claim C5 witness: a concrete stream with all draws `½` satisfies the
range hypothesis, and a two-point explode cloud evaluates as stated. -/
theorem explode_cloud_spec_witness :
    (getExplodePositions 2 rngHalf 0).length = 2 ∧
    (getExplodePositions 2 rngHalf 0)[0]? =
      some ((rngHalf 0 - 1/2) * 500, (rngHalf 1 - 1/2) * 500,
            (rngHalf 2 - 1/2) * 500) ∧
    (∀ p ∈ getExplodePositions 2 rngHalf 0,
        (-250 ≤ p.1 ∧ p.1 ≤ 250) ∧ (-250 ≤ p.2.1 ∧ p.2.1 ≤ 250) ∧
          (-250 ≤ p.2.2 ∧ p.2.2 ≤ 250)) := by
  have h := explode_cloud_spec 2 rngHalf 0
    (fun n => by constructor <;> norm_num [rngHalf])
  exact ⟨h.1, h.2.1 0 (by norm_num), h.2.2⟩

/-- Claim C6: an explode request resolves its target exactly once, at
request time — the new tween carries the cloud generated from the current
stream cursor, and the cursor advances by exactly one generation's worth
of draws (`3 * particleCount`), so a later explode request reads entirely
fresh draws; the model map is untouched (no caching); and no GSAP frame
ever alters a pending tween's shape name or end array, so the tween keeps
a single stable endpoint for its whole duration. -/
theorem explode_single_generation :
    (∀ s : MorpherState, s.hasParticles = true →
        (morphTo s "explode").tweens =
          s.tweens ++ [⟨"explode",
            getExplodePositions s.particleCount s.rng s.rngIdx,
            tweenDuration s⟩] ∧
        (morphTo s "explode").rngIdx = s.rngIdx + 3 * s.particleCount ∧
        (morphTo s "explode").models = s.models) ∧
    (∀ (s : MorpherState) (dt : ℚ) (t2 : Tween),
        t2 ∈ (stepTweens s dt).tweens →
        ∃ t1, t1 ∈ s.tweens ∧ t2.shape = t1.shape ∧ t2.target = t1.target) := by
  constructor
  · intro s h2
    rw [morphTo_explode s h2]
    exact ⟨rfl, rfl, rfl⟩
  · intro s dt t2 h
    have h2 : t2 ∈ (s.tweens.foldl (stepAcc dt) (s, [])).2 := h
    rcases stepAcc_fold_mem dt s.tweens (s, []) t2 h2 with h3 | h3
    · exact absurd h3 (List.not_mem_nil t2)
    · exact h3

/-- Claim C6 witness: from the concrete initial state, an explode request
advances the stream cursor by one generation, and the pending explode
tween of `sOne` survives a 1-second frame with its endpoint intact. -/
theorem explode_single_generation_witness :
    (morphTo s0 "explode").rngIdx = s0.rngIdx + 3 * s0.particleCount ∧
    (∃ t1, t1 ∈ sOne.tweens ∧
        (Tween.mk "explode" ([] : PointCloud) (3/2)).shape = t1.shape ∧
        (Tween.mk "explode" ([] : PointCloud) (3/2)).target = t1.target) := by
  constructor
  · exact (explode_single_generation.1 s0 rfl).2.1
  · exact explode_single_generation.2 sOne 1 ⟨"explode", [], 3/2⟩
      (by decide)

/-- Claim C7: the scheduler tick issues a morph exactly when auto-morph is
on, no transition is running, `now - lastMorphTimestamp` strictly exceeds
the interval, and at least one shape is registered; the issued target is
`shapeNames[(indexOf(currentShapeName) + 1) mod count]` in registration
order and `lastMorphTimestamp` is reset to `now`; with no shapes the tick
is a no-op; and from the concrete initial state with shapes
["queen", "pawn"] at "queen", two consecutive auto-morphs pass through
"pawn" and return to "queen". -/
theorem auto_morph_tick_spec :
    (∀ (s : MorpherState) (now : ℚ), s.autoMorph = false →
        handleAutoMorph s now = s) ∧
    (∀ (s : MorpherState) (now : ℚ), s.isTransitioning = true →
        handleAutoMorph s now = s) ∧
    (∀ (s : MorpherState) (now : ℚ),
        now - s.lastMorphTime ≤ s.autoMorphDuration →
        handleAutoMorph s now = s) ∧
    (∀ (s : MorpherState) (now : ℚ), s.models = [] →
        handleAutoMorph s now = s) ∧
    (∀ (s : MorpherState) (now : ℚ), s.autoMorph = true →
        s.isTransitioning = false →
        s.autoMorphDuration < now - s.lastMorphTime → s.models ≠ [] →
        handleAutoMorph s now =
          { morphTo s ((s.models.map Prod.fst).getD
              (((jsIndexOf (s.models.map Prod.fst) s.currentShape + 1) %
                ((s.models.map Prod.fst).length : Int)).toNat) "")
            with lastMorphTime := now }) ∧
    ((run s0 cyclePrefix).currentShape = "pawn" ∧
      (run s0 cyclePrefix).isTransitioning = false ∧
      (run s0 cycleTrace).currentShape = "queen" ∧
      (run s0 cycleTrace).isTransitioning = false) := by
  refine ⟨?_, ?_, ?_, ?_, ?_, rfl, rfl, rfl, rfl⟩
  · intro s now h
    unfold handleAutoMorph
    rw [if_pos (Or.inl h)]
  · intro s now h
    unfold handleAutoMorph
    rw [if_pos (Or.inr h)]
  · intro s now h
    unfold handleAutoMorph
    by_cases hg : s.autoMorph = false ∨ s.isTransitioning = true
    · rw [if_pos hg]
    · rw [if_neg hg, if_neg (not_lt.mpr h)]
  · intro s now h
    unfold handleAutoMorph
    by_cases hg : s.autoMorph = false ∨ s.isTransitioning = true
    · rw [if_pos hg]
    · rw [if_neg hg]
      by_cases hd : s.autoMorphDuration < now - s.lastMorphTime
      · rw [if_pos hd, if_neg (by simp [h])]
      · rw [if_neg hd]
  · intro s now h1 h2 h3 h4
    unfold handleAutoMorph
    rw [if_neg (by simp [h1, h2]), if_pos h3,
        if_pos (by simp [List.length_pos, List.map_eq_nil_iff, h4])]

/-- Claim C7 witness: at `now = 5001` ms the concrete idle initial state
fires and targets "pawn" (the successor of "queen" in registration
order), resetting the auto-morph clock. -/
theorem auto_morph_tick_spec_witness :
    handleAutoMorph s0 5001 = { morphTo s0 "pawn" with lastMorphTime := 5001 } := by
  have h := auto_morph_tick_spec.2.2.2.2.1 s0 5001 rfl rfl (by decide) (by decide)
  exact h

/-- Claim C8 counterexample: the claim says `lastMorphTimestamp` is reset
whenever a manual or automatic morph completes; but `onComplete`
(`main.ts` lines 160-165) never touches `lastMorphTime`.  In the concrete
run a manual morph to "pawn" completes during the frame at
`now = 5000` ms, yet `lastMorphTime` is still its initial value `0`, not
`5000` (nor the earlier completion time `2500`). -/
theorem completion_no_reset :
    (run s0 manualTrace).currentShape = "pawn" ∧
    (run s0 manualTrace).isTransitioning = false ∧
    (run s0 manualTrace).lastMorphTime = 0 ∧
    (run s0 manualTrace).lastMorphTime ≠ 5000 ∧
    (run s0 manualTrace).lastMorphTime ≠ 2500 := by
  refine ⟨rfl, rfl, rfl, by decide, by decide⟩

/-- Claim C8 (amended): `lastMorphTimestamp` is reset to "now" in exactly
these situations: whenever auto-morph is (re-)enabled (the
`autoMorphReset` setting-update), and whenever the scheduler itself
issues an automatic morph; morph completion — manual or automatic — never
touches it, and a manual request never touches it.  After toggling
auto-morph on, a scheduler check at the same instant is still a no-op
(for a nonnegative interval), so the first automatic morph happens one
full interval later, not immediately. -/
theorem last_morph_time_resets :
    (∀ (s : MorpherState) (checked : Bool) (now : ℚ),
        (step s (Event.toggleAutoMorph checked now)).lastMorphTime =
          if checked = true then now else s.lastMorphTime) ∧
    (∀ (s : MorpherState) (shape : String),
        (step s (Event.request shape)).lastMorphTime = s.lastMorphTime) ∧
    (∀ (s : MorpherState) (dt : ℚ),
        (stepTweens s dt).lastMorphTime = s.lastMorphTime) ∧
    (∀ (s : MorpherState) (now : ℚ),
        (handleAutoMorph s now).lastMorphTime =
          if AutoFire s now then now else s.lastMorphTime) ∧
    (∀ (s : MorpherState) (now dt : ℚ), 0 ≤ s.autoMorphDuration →
        step (step s (Event.toggleAutoMorph true now)) (Event.frame now dt) =
          stepTweens (step s (Event.toggleAutoMorph true now)) dt) := by
  refine ⟨?_, ?_, stepTweens_lastMorphTime, handleAutoMorph_lastMorphTime, ?_⟩
  · intro s checked now
    simp only [step]
    split <;> rfl
  · intro s shape
    exact morphTo_lastMorphTime s shape
  · intro s now dt h
    show stepTweens (handleAutoMorph _ now) dt = _
    congr 1
    unfold handleAutoMorph
    by_cases hg : (step s (Event.toggleAutoMorph true now)).autoMorph = false ∨
        (step s (Event.toggleAutoMorph true now)).isTransitioning = true
    · rw [if_pos hg]
    · rw [if_neg hg, if_neg]
      show ¬((step s (Event.toggleAutoMorph true now)).autoMorphDuration <
        now - (step s (Event.toggleAutoMorph true now)).lastMorphTime)
      have hl : (step s (Event.toggleAutoMorph true now)).lastMorphTime = now := rfl
      have hd : (step s (Event.toggleAutoMorph true now)).autoMorphDuration =
        s.autoMorphDuration := rfl
      rw [hl, hd, sub_self]
      exact not_lt.mpr h

/-- Claim C8 amended-claim witness: toggling auto-morph on the concrete
initial state resets the clock, and a frame at the same instant performs
no scheduling. -/
theorem last_morph_time_resets_witness :
    (step s0 (Event.toggleAutoMorph true 7)).lastMorphTime = 7 ∧
    step (step s0 (Event.toggleAutoMorph true 7)) (Event.frame 7 1) =
      stepTweens (step s0 (Event.toggleAutoMorph true 7)) 1 := by
  constructor
  · rw [last_morph_time_resets.1 s0 true 7]
    rfl
  · exact last_morph_time_resets.2.2.2.2 s0 7 1 (by decide)

/-- Claim C9: the interaction-field displacement is exactly the zero
vector whenever the reversed smoothstep falloff evaluates to zero, and in
particular whenever the particle's distance from the pointer exceeds
`radius * 1.7`, the largest possible effective radius
`radius * (1.2 + noise * 0.5)` for `0 ≤ noise ≤ 1` (for any positive
radius and any oracle for the transcendental builtins). -/
theorem interaction_far_zero :
    (∀ (m : ShaderMath) (worldPos posLocal uMouse : Vec3)
        (noise uRadius uStrength uTime : ℚ),
        falloffOf noise uRadius (m.distq worldPos uMouse) = 0 →
        interactionDisplacement m worldPos posLocal uMouse noise uRadius
          uStrength uTime = (0, 0, 0)) ∧
    (∀ (m : ShaderMath) (worldPos posLocal uMouse : Vec3)
        (noise uRadius uStrength uTime : ℚ),
        0 ≤ noise → noise ≤ 1 → 0 < uRadius →
        uRadius * (17/10) < m.distq worldPos uMouse →
        interactionDisplacement m worldPos posLocal uMouse noise uRadius
          uStrength uTime = (0, 0, 0)) := by
  refine ⟨dispZero_of_falloff, ?_⟩
  intro m worldPos posLocal uMouse noise uRadius uStrength uTime h0 h1 h2 h3
  exact dispZero_of_falloff m worldPos posLocal uMouse noise uRadius uStrength
    uTime (falloff_far_zero noise uRadius (m.distq worldPos uMouse) h0 h1 h2 h3)

/-- Claim C9 witness: with the trivial oracle reporting distance 2,
`noise = 0` and `radius = 1` (so `radius * 1.7 < 2`), the displacement is
the zero vector. -/
theorem interaction_far_zero_witness :
    (0 : ℚ) ≤ 0 ∧ (0 : ℚ) ≤ 1 ∧ (0 : ℚ) < 1 ∧
    (1 : ℚ) * (17/10) < zeroMath.distq (0, 0, 0) (0, 0, 0) ∧
    interactionDisplacement zeroMath (0, 0, 0) (0, 0, 0) (0, 0, 0) 0 1 10 0
      = (0, 0, 0) := by
  refine ⟨le_refl 0, by norm_num, by norm_num, by norm_num [zeroMath], ?_⟩
  exact interaction_far_zero.2 zeroMath (0, 0, 0) (0, 0, 0) (0, 0, 0) 0 1 10 0
    (le_refl 0) (by norm_num) (by norm_num) (by norm_num [zeroMath])

/-- Claim C10: when the stored current shape is not among the registered
names (for example "explode" after an explode morph completes),
`indexOf` yields `-1`, so a firing scheduler tick targets
`shapeNames[(-1 + 1) mod count] = shapeNames[0]`, the first registered
shape in insertion order, rather than failing or skipping. -/
theorem auto_morph_unknown_shape (s : MorpherState) (now : ℚ)
    (h1 : s.autoMorph = true) (h2 : s.isTransitioning = false)
    (h3 : s.autoMorphDuration < now - s.lastMorphTime)
    (h4 : s.models ≠ [])
    (h5 : s.currentShape ∉ s.models.map Prod.fst) :
    handleAutoMorph s now =
      { morphTo s ((s.models.map Prod.fst).getD 0 "")
        with lastMorphTime := now } := by
  unfold handleAutoMorph
  rw [if_neg (by simp [h1, h2]), if_pos h3,
      if_pos (by simp [List.length_pos, List.map_eq_nil_iff, h4]),
      jsIndexOf_not_mem (s.models.map Prod.fst) s.currentShape h5]
  norm_num

/-- Claim C10 witness: a concrete state whose current shape is the
ephemeral "explode" fires at `now = 6000` ms and targets "queen", the
first registered shape. -/
theorem auto_morph_unknown_shape_witness :
    handleAutoMorph sExpl 6000 =
      { morphTo sExpl "queen" with lastMorphTime := 6000 } := by
  have h := auto_morph_unknown_shape sExpl 6000 rfl rfl (by decide) (by decide)
    (by decide)
  exact h

